import Mathlib

/-!
Verification of the execution-tracking and retry-governance core of the
xdp-mcp-server repository: a shallow embedding of `handleExecuteAndMonitor`
and `handleRegisterManualExecution` (src/src/index.ts lines 416-595, and the
WebSocket-server copy in the websocket server source lines 1396-1563), of the
per-session tracking map `executionTracking`, and of the post-submission
log-collection phase of `executeAdhocRun`
(src/src/services/xdp-api-client.ts lines 422-447).

Timestamps are modelled as integer epoch milliseconds (`Date.now()`,
`new Date(0)` is 0).  JavaScript `a || b` on possibly-absent strings treats
the empty string as falsy; `jsOrStr` and `jsTruthy` embed that.
-/

/-- One entry of the `executionTracking` map
(src/src/index.ts lines 21-28): attempt count, time of last execution,
optional last error message, manual-execution flag, optional last run id. -/
structure Tracking where
  count : Nat
  lastExecution : Int
  lastError : Option String
  hasManualExecution : Bool
  lastRunId : Option String
deriving Repr, DecidableEq

/-- The default tracking record created on first reference:
`\x7b count: 0, lastExecution: new Date(0), hasManualExecution: false \x7d`. -/
def defaultTracking : Tracking :=
  { count := 0
    lastExecution := 0
    lastError := none
    hasManualExecution := false
    lastRunId := none }

/-- The `executionTracking` session store, a map from session id to
tracking record, modelled as an association list. -/
abbrev Store := List (String × Tracking)

/-- `Map.get`: first binding of the key, if any. -/
def getT : Store → String → Option Tracking
  | [], _ => none
  | p :: rest, k => if p.1 = k then some p.2 else getT rest k

/-- `Map.set`: replace the binding of the key, or append it. -/
def setT : Store → String → Tracking → Store
  | [], k, t => [(k, t)]
  | p :: rest, k, t => if p.1 = k then (k, t) :: rest else p :: setT rest k t

/-- JavaScript truthiness of an optional string (`undefined` and `""` are
falsy). -/
def jsTruthy : Option String → Bool
  | none => false
  | some s => !(s = "")

/-- JavaScript `a || b` for an optional string `a` and a fallback `b`. -/
def jsOrStr (a : Option String) (b : String) : String :=
  match a with
  | none => b
  | some s => if s = "" then b else s

/-- The normalized response of `xdpClient.executeAdhocRun`
(src/src/services/xdp-api-client.ts lines 298-304):
`\x7b success, runId?, status?, logs?, error? \x7d`. -/
structure GatewayResult where
  success : Bool
  runId : Option String
  status : Option String
  logs : Option String
  error : Option String
deriving Repr, DecidableEq

/-- Classification of the result returned by `handleExecuteAndMonitor`,
one constructor per `return` site, carrying the data interpolated into the
corresponding message text. -/
inductive ResultKind where
  | manualRequired
  | limitReached (count : Nat) (lastError : Option String)
  | cooldownActive (remainingDelay : Int) (count : Nat)
  | executionFailed (error : Option String) (runId : Option String)
      (isManualTrigger : Bool) (count : Nat)
  | executionSucceeded (runId : Option String) (status : Option String)
      (logs : String) (count : Nat)
deriving Repr, DecidableEq

/-- Whether a result is the hard retry-limit refusal. -/
def ResultKind.isLimitReached : ResultKind → Bool
  | .limitReached _ _ => true
  | _ => false

/-- A tool result: its classified kind plus the `isError` flag, which the
source attaches (as `isError: true`) only on the limit-reached return and
leaves absent everywhere else. -/
structure ToolResult where
  kind : ResultKind
  isError : Option Bool
deriving Repr, DecidableEq

/-- Outcome of one `handleExecuteAndMonitor` call: the returned result, the
session store afterwards, and whether `xdpClient.executeAdhocRun` (the Job
Submission Gateway) was invoked. -/
structure ExecOutcome where
  result : ToolResult
  store : Store
  gatewayCalled : Bool
deriving Repr, DecidableEq

/-- `MAX_EXECUTIONS` of the stdio handler (src/src/index.ts line 427). -/
def MAX_EXECUTIONS : Nat := 3

/-- `MIN_DELAY_MS` of the stdio handler (src/src/index.ts line 428). -/
def MIN_DELAY_MS : Int := 30000

/-- `MAX_EXECUTIONS` of the WebSocket-server handler (websocket server
source line 1400). -/
def wsMAX_EXECUTIONS : Nat := 3

/-- `MIN_DELAY_MS` of the WebSocket-server handler (websocket server
source line 1401). -/
def wsMIN_DELAY_MS : Int := 30000

/-- `Math.ceil(a / b)` for integers with positive `b`, as the negated floor
division of the negation. -/
def ceilDiv (a b : Int) : Int := -((-a) / b)

/-- Shallow embedding of `handleExecuteAndMonitor`
(src/src/index.ts lines 416-546).  `now` is `Date.now()`; the gateway
response `gw` stands for the awaited `executeAdhocRun` result (that function
catches its own errors and never rejects).  The branches are translated in
source order: manual-first check, retry-limit check, cooldown check, then
the attempt: increment `count`, stamp `lastExecution`, set
`hasManualExecution` on a manual trigger, persist, call the gateway, and on
failure record `lastError` and persist again. -/
def handleExecuteAndMonitor (σ : Store) (now : Int) (sessionId : String)
    (isManualTrigger : Bool) (gw : GatewayResult) : ExecOutcome :=
  let tracking := (getT σ sessionId).getD defaultTracking
  let timeSinceLastExecution : Int := now - tracking.lastExecution
  if !tracking.hasManualExecution && !isManualTrigger then
    { result := { kind := ResultKind.manualRequired, isError := none }
      store := σ
      gatewayCalled := false }
  else if tracking.count ≥ MAX_EXECUTIONS then
    { result := { kind := ResultKind.limitReached tracking.count tracking.lastError
                  isError := some true }
      store := σ
      gatewayCalled := false }
  else if timeSinceLastExecution < MIN_DELAY_MS ∧ tracking.count > 0 then
    let remainingDelay := ceilDiv (MIN_DELAY_MS - timeSinceLastExecution) 1000
    { result := { kind := ResultKind.cooldownActive remainingDelay tracking.count
                  isError := none }
      store := σ
      gatewayCalled := false }
  else
    let tracking1 : Tracking :=
      { tracking with
        count := tracking.count + 1
        lastExecution := now
        hasManualExecution := if isManualTrigger then true else tracking.hasManualExecution }
    let σ1 := setT σ sessionId tracking1
    if gw.success then
      { result := { kind := ResultKind.executionSucceeded gw.runId gw.status
                      (jsOrStr gw.logs "Execution completed successfully") tracking1.count
                    isError := none }
        store := σ1
        gatewayCalled := true }
    else
      let tracking2 : Tracking :=
        { tracking1 with lastError := some (jsOrStr gw.error "Execution failed") }
      let σ2 := setT σ1 sessionId tracking2
      { result := { kind := ResultKind.executionFailed gw.error gw.runId
                      isManualTrigger tracking2.count
                    isError := none }
        store := σ2
        gatewayCalled := true }

/-- Shallow embedding of the WebSocket-server copy of
`handleExecuteAndMonitor` (websocket server source lines 1396-1514).  Its
governor logic is transcribed separately from that source; it forwards the
whole params object to the gateway instead of a projected job spec, which is
outside the session-policy state modelled here. -/
def handleExecuteAndMonitorWS (σ : Store) (now : Int) (sessionId : String)
    (isManualTrigger : Bool) (gw : GatewayResult) : ExecOutcome :=
  let tracking := (getT σ sessionId).getD defaultTracking
  let timeSinceLastExecution : Int := now - tracking.lastExecution
  if !tracking.hasManualExecution && !isManualTrigger then
    { result := { kind := ResultKind.manualRequired, isError := none }
      store := σ
      gatewayCalled := false }
  else if tracking.count ≥ wsMAX_EXECUTIONS then
    { result := { kind := ResultKind.limitReached tracking.count tracking.lastError
                  isError := some true }
      store := σ
      gatewayCalled := false }
  else if timeSinceLastExecution < wsMIN_DELAY_MS ∧ tracking.count > 0 then
    let remainingDelay := ceilDiv (wsMIN_DELAY_MS - timeSinceLastExecution) 1000
    { result := { kind := ResultKind.cooldownActive remainingDelay tracking.count
                  isError := none }
      store := σ
      gatewayCalled := false }
  else
    let tracking1 : Tracking :=
      { tracking with
        count := tracking.count + 1
        lastExecution := now
        hasManualExecution := if isManualTrigger then true else tracking.hasManualExecution }
    let σ1 := setT σ sessionId tracking1
    if gw.success then
      { result := { kind := ResultKind.executionSucceeded gw.runId gw.status
                      (jsOrStr gw.logs "Execution completed successfully") tracking1.count
                    isError := none }
        store := σ1
        gatewayCalled := true }
    else
      let tracking2 : Tracking :=
        { tracking1 with lastError := some (jsOrStr gw.error "Execution failed") }
      let σ2 := setT σ1 sessionId tracking2
      { result := { kind := ResultKind.executionFailed gw.error gw.runId
                      isManualTrigger tracking2.count
                    isError := none }
        store := σ2
        gatewayCalled := true }

/-- Shallow embedding of `handleRegisterManualExecution`
(src/src/index.ts lines 551-595): fetch or default the tracking record, set
`hasManualExecution = true`, record `runId` when truthy, persist; the
returned Bool is which of the two confirmation messages was chosen
(`success`). -/
def handleRegisterManualExecution (σ : Store) (sessionId : String)
    (runId : Option String) (success : Bool) : Store × Bool :=
  let tracking := (getT σ sessionId).getD defaultTracking
  let tracking1 : Tracking :=
    { tracking with
      hasManualExecution := true
      lastRunId := if jsTruthy runId then runId else tracking.lastRunId }
  (setT σ sessionId tracking1, success)

/-- Shallow embedding of the post-submission phase of `executeAdhocRun`
(src/src/services/xdp-api-client.ts lines 422-447): given the run id
extracted from a successful submission, the optional remote status, and the
outcome of SSE log collection (`listenToSSELogs`, which either resolves with
text or rejects), build the normalized result.  A rejected log collection is
caught and replaced by the placeholder note. -/
def executeAdhocRunCollectPhase (runId : String) (status : Option String)
    (logCollection : Except String String) : GatewayResult :=
  let logs : String :=
    match logCollection with
    | Except.ok l => l
    | Except.error _ =>
        "Logs are being generated. Check the Bolt.DIY interface for real-time logs."
  { success := true
    runId := some runId
    status := some (jsOrStr status "STARTED")
    logs := some (jsOrStr (some logs) "Execution started successfully. Check logs panel for details.")
    error := none }

/-- One call to the Execution Governor, for sequencing: an
`execute_and_monitor` call (with its clock reading and gateway response) or
a `register_manual_execution` call. -/
inductive Call where
  | exec (sessionId : String) (now : Int) (isManualTrigger : Bool) (gw : GatewayResult)
  | register (sessionId : String) (runId : Option String) (success : Bool)
deriving Repr, DecidableEq

/-- The session store after one call. -/
def stepCall (σ : Store) : Call → Store
  | Call.exec k now m gw => (handleExecuteAndMonitor σ now k m gw).store
  | Call.register k r b => (handleRegisterManualExecution σ k r b).1

/-- The session store after a sequence of calls, evaluated sequentially. -/
def runCalls (σ : Store) : List Call → Store
  | [] => σ
  | c :: cs => runCalls (stepCall σ c) cs

/-- A gateway response reporting a successful submission, for concrete
test instantiations. -/
def gwOK : GatewayResult :=
  { success := true
    runId := some "r1"
    status := some "RUNNING"
    logs := some "log"
    error := none }

/-- A gateway response reporting a failed submission with error message
`boom`, for concrete test instantiations. -/
def gwFail : GatewayResult :=
  { success := false
    runId := none
    status := none
    logs := none
    error := some "boom" }

/-- A concrete call sequence driving session `s` to the retry cap:
one manual registration, then three failing attempts spaced 30 seconds
apart. -/
def csWitness : List Call :=
  [Call.register "s" none true,
   Call.exec "s" 0 false gwFail,
   Call.exec "s" 30000 false gwFail,
   Call.exec "s" 60000 false gwFail]

/-- A gateway response reporting a failed submission with error message
`crash`, for concrete test instantiations. -/
def gwCrash : GatewayResult :=
  { success := false
    runId := some "r2"
    status := none
    logs := none
    error := some "crash" }

/-- A concrete store holding one session that has a manual execution, one
attempt at time 0, and a recorded last error `boom`. -/
def σboom : Store :=
  [("s", { count := 1
           lastExecution := 0
           lastError := some "boom"
           hasManualExecution := true
           lastRunId := none })]

/-- Invariant of one tracking record: the attempt count never exceeds
`MAX_EXECUTIONS`, and a positive count implies the manual flag. -/
def SessionInv (t : Tracking) : Prop :=
  t.count ≤ MAX_EXECUTIONS ∧ (0 < t.count → t.hasManualExecution = true)

/-- Invariant of the whole session store. -/
def StoreInv (σ : Store) : Prop :=
  ∀ k t, getT σ k = some t → SessionInv t

/-! ## Association-list map lemmas -/

theorem getT_setT_self (σ : Store) (k : String) (t : Tracking) :
    getT (setT σ k t) k = some t := by
  induction σ with
  | nil => simp [getT, setT]
  | cons p rest ih =>
      by_cases h : p.1 = k
      · simp [getT, setT, h]
      · simp [getT, setT, h, ih]

theorem getT_setT_ne (σ : Store) (k k' : String) (t : Tracking) (h : k' ≠ k) :
    getT (setT σ k t) k' = getT σ k' := by
  have hks : ¬k = k' := fun he => h he.symm
  induction σ with
  | nil => simp [getT, setT, hks]
  | cons p rest ih =>
      by_cases hp : p.1 = k
      · simp [getT, setT, hp, hks]
      · simp [getT, setT, hp, ih]

theorem setT_setT_self (σ : Store) (k : String) (a b : Tracking) :
    setT (setT σ k a) k b = setT σ k b := by
  induction σ with
  | nil => simp [setT]
  | cons p rest ih =>
      by_cases h : p.1 = k
      · simp [setT, h]
      · simp [setT, h, ih]

/-! ## Reachability invariant -/

theorem storeInv_nil : StoreInv [] := by
  intro k t h
  simp [getT] at h

theorem sessionInv_defaultTracking : SessionInv defaultTracking := by
  constructor <;> simp [defaultTracking, MAX_EXECUTIONS]

theorem sessionInv_getD (hσ : StoreInv σ) (k : String) :
    SessionInv ((getT σ k).getD defaultTracking) := by
  cases h : getT σ k with
  | none => simpa using sessionInv_defaultTracking
  | some t => simpa using hσ k t h

theorem storeInv_setT (hσ : StoreInv σ) (ht : SessionInv t) :
    StoreInv (setT σ k t) := by
  intro k' t' h
  by_cases hk : k' = k
  · subst hk
    rw [getT_setT_self] at h
    cases h
    exact ht
  · rw [getT_setT_ne σ k k' t hk] at h
    exact hσ k' t' h

theorem exec_preserves_storeInv (σ : Store) (now : Int) (k : String)
    (m : Bool) (gw : GatewayResult) (hσ : StoreInv σ) :
    StoreInv (handleExecuteAndMonitor σ now k m gw).store := by
  have hd := sessionInv_getD hσ k
  unfold handleExecuteAndMonitor
  set tracking := (getT σ k).getD defaultTracking with htr
  by_cases h1 : (!tracking.hasManualExecution && !m) = true
  · simpa [h1] using hσ
  · by_cases h2 : tracking.count ≥ MAX_EXECUTIONS
    · simpa [h1, h2] using hσ
    · by_cases h3 : now - tracking.lastExecution < MIN_DELAY_MS ∧ tracking.count > 0
      · simpa [h1, h2, h3] using hσ
      · have hman : (if m = true then true else tracking.hasManualExecution) = true := by
          cases m with
          | true => simp
          | false =>
              simp only [Bool.not_false, Bool.and_true, Bool.not_eq_true'] at h1
              simp [h1]
        have hcnt : tracking.count + 1 ≤ MAX_EXECUTIONS := by omega
        have hinv1 : SessionInv
            { tracking with
              count := tracking.count + 1
              lastExecution := now
              hasManualExecution := if m = true then true else tracking.hasManualExecution } := by
          refine ⟨hcnt, fun _ => hman⟩
        by_cases h4 : gw.success = true
        · simp only [h1, h2, h3, h4, if_true, if_false, Bool.false_eq_true]
          simpa [h1, h2, h3, h4] using storeInv_setT hσ hinv1
        · have hinv2 : SessionInv
              { tracking with
                count := tracking.count + 1
                lastExecution := now
                hasManualExecution := if m = true then true else tracking.hasManualExecution
                lastError := some (jsOrStr gw.error "Execution failed") } := by
            refine ⟨hcnt, fun _ => hman⟩
          simpa [h1, h2, h3, h4] using
            storeInv_setT (storeInv_setT hσ hinv1) hinv2

theorem register_preserves_storeInv (σ : Store) (k : String)
    (r : Option String) (b : Bool) (hσ : StoreInv σ) :
    StoreInv (handleRegisterManualExecution σ k r b).1 := by
  have hd := sessionInv_getD hσ k
  unfold handleRegisterManualExecution
  refine storeInv_setT hσ ?_
  exact ⟨hd.1, fun _ => rfl⟩

theorem stepCall_preserves_storeInv (σ : Store) (c : Call) (hσ : StoreInv σ) :
    StoreInv (stepCall σ c) := by
  cases c with
  | exec k now m gw => exact exec_preserves_storeInv σ now k m gw hσ
  | register k r b => exact register_preserves_storeInv σ k r b hσ

theorem runCalls_preserves_storeInv (cs : List Call) (σ : Store) (hσ : StoreInv σ) :
    StoreInv (runCalls σ cs) := by
  induction cs generalizing σ with
  | nil => simpa [runCalls] using hσ
  | cons c cs ih => exact ih (stepCall σ c) (stepCall_preserves_storeInv σ c hσ)

/-! ## Ceiling-division arithmetic -/

theorem ceilDiv_1000_bounds (a : Int) :
    1000 * (ceilDiv a 1000 - 1) < a ∧ a ≤ 1000 * ceilDiv a 1000 := by
  unfold ceilDiv
  omega

theorem ceilDiv_1000_pos (a : Int) (ha : 0 < a) : 0 < ceilDiv a 1000 := by
  unfold ceilDiv
  omega

/-! ## Claims -/

/-- Claim C1: for every session state and every `executeAndMonitor` call with
`isManualTrigger = false`, if the session's `hasManualExecution` flag is
false (absent sessions defaulting to false) then the call returns the
manual-execution-required result, the Job Submission Gateway is not invoked,
and no session state is mutated. -/
theorem C1_manual_first_blocks (σ : Store) (now : Int) (k : String)
    (gw : GatewayResult)
    (h : ((getT σ k).getD defaultTracking).hasManualExecution = false) :
    (handleExecuteAndMonitor σ now k false gw).result.kind = ResultKind.manualRequired ∧
    (handleExecuteAndMonitor σ now k false gw).gatewayCalled = false ∧
    (handleExecuteAndMonitor σ now k false gw).store = σ := by
  unfold handleExecuteAndMonitor
  simp [h]

/-- Witness for C1 at a fresh store. -/
theorem C1_witness :
    (handleExecuteAndMonitor [] 0 "s1" false gwOK).result.kind = ResultKind.manualRequired ∧
    (handleExecuteAndMonitor [] 0 "s1" false gwOK).gatewayCalled = false ∧
    (handleExecuteAndMonitor [] 0 "s1" false gwOK).store = [] :=
  C1_manual_first_blocks [] 0 "s1" gwOK (by decide)

/-- Claim C5: a returned result carries `isError := some true` exactly when
it is the retry-limit refusal; every other branch leaves the flag absent. -/
theorem C5_isError_iff_limit (σ : Store) (now : Int) (k : String) (m : Bool)
    (gw : GatewayResult) :
    (handleExecuteAndMonitor σ now k m gw).result.isError
      = (if (handleExecuteAndMonitor σ now k m gw).result.kind.isLimitReached
          then some true else none) := by
  unfold handleExecuteAndMonitor
  set t := (getT σ k).getD defaultTracking with ht
  by_cases h1 : (!t.hasManualExecution && !m) = true
  · simp [h1, ResultKind.isLimitReached]
  · by_cases h2 : t.count ≥ MAX_EXECUTIONS
    · simp [h1, h2, ResultKind.isLimitReached]
    · by_cases h3 : now - t.lastExecution < MIN_DELAY_MS ∧ t.count > 0
      · simp [h1, h2, h3, ResultKind.isLimitReached]
      · by_cases h4 : gw.success = true
        · simp [h1, h2, h3, h4, ResultKind.isLimitReached]
        · simp [h1, h2, h3, h4, ResultKind.isLimitReached]

/-- Claim C10 (implicit invariant): in every store reachable from the empty
store by a sequence of `executeAndMonitor` and `registerManualExecution`
calls, a session with a positive attempt count has its manual flag set. -/
theorem C10_manual_flag_invariant (cs : List Call) (k : String) (t : Tracking)
    (ht : getT (runCalls [] cs) k = some t) (hpos : 0 < t.count) :
    t.hasManualExecution = true :=
  (runCalls_preserves_storeInv cs [] storeInv_nil k t ht).2 hpos

/-- Witness for C10: one manual attempt yields count 1 with the flag set. -/
theorem C10_witness :
    getT (runCalls [] [Call.exec "s" 0 true gwOK]) "s"
      = some { count := 1, lastExecution := 0, lastError := none,
               hasManualExecution := true, lastRunId := none } ∧
    ({ count := 1, lastExecution := 0, lastError := none,
       hasManualExecution := true, lastRunId := none } : Tracking).hasManualExecution = true :=
  ⟨by decide,
   C10_manual_flag_invariant [Call.exec "s" 0 true gwOK] "s"
     { count := 1, lastExecution := 0, lastError := none,
       hasManualExecution := true, lastRunId := none }
     (by decide) (by decide)⟩

/-- Counterexample to claim C9 as stated: a blocked `executeAndMonitor`
call on a fresh key does not insert a session record — the store stays
empty, so after a call naming `s1` the store holds no record for `s1`. -/
theorem C9_counterexample :
    (handleExecuteAndMonitor [] 0 "s1" false gwOK).store = ([] : Store) ∧
    getT (handleExecuteAndMonitor [] 0 "s1" false gwOK).store "s1" = none := by
  decide

/-- Claim C9 as amended: `registerManualExecution` always inserts the
session record; `executeAndMonitor` inserts it exactly when the attempt
proceeds past the policy checks (when the gateway is called), while blocked
calls leave the store unchanged (absent keys read as the default state). -/
theorem C9_lazy_creation (σ : Store) (k : String) (r : Option String)
    (b : Bool) (now : Int) (m : Bool) (gw : GatewayResult) :
    (getT (handleRegisterManualExecution σ k r b).1 k).isSome = true ∧
    ((handleExecuteAndMonitor σ now k m gw).gatewayCalled = true →
      (getT (handleExecuteAndMonitor σ now k m gw).store k).isSome = true) ∧
    ((handleExecuteAndMonitor σ now k m gw).gatewayCalled = false →
      (handleExecuteAndMonitor σ now k m gw).store = σ) := by
  refine ⟨?_, ?_, ?_⟩
  · unfold handleRegisterManualExecution
    simp [getT_setT_self]
  all_goals
    unfold handleExecuteAndMonitor
    set t := (getT σ k).getD defaultTracking with ht
    by_cases h1 : (!t.hasManualExecution && !m) = true
    · simp [h1]
    · by_cases h2 : t.count ≥ MAX_EXECUTIONS
      · simp [h1, h2]
      · by_cases h3 : now - t.lastExecution < MIN_DELAY_MS ∧ t.count > 0
        · simp [h1, h2, h3]
        · by_cases h4 : gw.success = true
          · simp [h1, h2, h3, h4, getT_setT_self]
          · simp [h1, h2, h3, h4, getT_setT_self]

/-- Witness for C9: registration inserts; a manual first attempt inserts;
a blocked automatic first attempt leaves the empty store empty. -/
theorem C9_witness :
    (getT (handleRegisterManualExecution [] "s" none true).1 "s").isSome = true ∧
    (getT (handleExecuteAndMonitor [] 0 "s" true gwOK).store "s").isSome = true ∧
    (handleExecuteAndMonitor [] 0 "s" false gwOK).store = [] :=
  ⟨(C9_lazy_creation [] "s" none true 0 true gwOK).1,
   (C9_lazy_creation [] "s" none true 0 true gwOK).2.1 (by decide),
   (C9_lazy_creation [] "s" none true 0 false gwOK).2.2 (by decide)⟩

/-- Claim C2: starting from the empty store, after any finite sequence of
`executeAndMonitor` and `registerManualExecution` calls, every session's
attempt count is at most `MAX_EXECUTIONS` (3); and on a session whose count
has reached 3, every further `executeAndMonitor` call returns the
retry-limit result, does not contact the Job Submission Gateway, and does
not mutate the store. -/
theorem C2_retry_cap (cs : List Call) (k : String) :
    (∀ t, getT (runCalls [] cs) k = some t → t.count ≤ 3) ∧
    (∀ t now m gw, getT (runCalls [] cs) k = some t → 3 ≤ t.count →
      (handleExecuteAndMonitor (runCalls [] cs) now k m gw).result.kind
          = ResultKind.limitReached t.count t.lastError ∧
      (handleExecuteAndMonitor (runCalls [] cs) now k m gw).gatewayCalled = false ∧
      (handleExecuteAndMonitor (runCalls [] cs) now k m gw).store = runCalls [] cs) := by
  have hinv := runCalls_preserves_storeInv cs [] storeInv_nil
  constructor
  · intro t ht
    exact (hinv k t ht).1
  · intro t now m gw ht hcnt
    have hman : t.hasManualExecution = true := (hinv k t ht).2 (by omega)
    have hge : t.count ≥ MAX_EXECUTIONS := by
      simpa [MAX_EXECUTIONS] using hcnt
    unfold handleExecuteAndMonitor
    simp [ht, hman, hge]

/-- Witness for C2: after `csWitness` the session sits at the cap with last
error `boom`, and one more call is the hard refusal. -/
theorem C2_witness :
    (handleExecuteAndMonitor (runCalls [] csWitness) 90000 "s" false gwOK).result.kind
        = ResultKind.limitReached 3 (some "boom") ∧
    (handleExecuteAndMonitor (runCalls [] csWitness) 90000 "s" false gwOK).gatewayCalled = false ∧
    (handleExecuteAndMonitor (runCalls [] csWitness) 90000 "s" false gwOK).store
        = runCalls [] csWitness :=
  (C2_retry_cap csWitness "s").2
    { count := 3, lastExecution := 60000, lastError := some "boom",
      hasManualExecution := true, lastRunId := none }
    90000 false gwOK (by decide) (by decide)

/-- Claim C3: an `executeAndMonitor` call on a session with a positive
attempt count, arriving within `MIN_DELAY_MS` of the last attempt and
passing the manual-first and limit checks, returns the cooldown result
whose remaining wait is the remaining cooldown rounded up to the nearest
second (hence strictly positive), mutating nothing and calling no
gateway. -/
theorem C3_cooldown (σ : Store) (now : Int) (k : String) (m : Bool)
    (gw : GatewayResult)
    (hm : (((getT σ k).getD defaultTracking).hasManualExecution || m) = true)
    (hcnt : ((getT σ k).getD defaultTracking).count < MAX_EXECUTIONS)
    (hpos : 0 < ((getT σ k).getD defaultTracking).count)
    (hcool : now - ((getT σ k).getD defaultTracking).lastExecution < MIN_DELAY_MS) :
    (handleExecuteAndMonitor σ now k m gw).result.kind
        = ResultKind.cooldownActive
            (ceilDiv (MIN_DELAY_MS - (now - ((getT σ k).getD defaultTracking).lastExecution)) 1000)
            ((getT σ k).getD defaultTracking).count ∧
    0 < ceilDiv (MIN_DELAY_MS - (now - ((getT σ k).getD defaultTracking).lastExecution)) 1000 ∧
    1000 * (ceilDiv (MIN_DELAY_MS - (now - ((getT σ k).getD defaultTracking).lastExecution)) 1000 - 1)
        < MIN_DELAY_MS - (now - ((getT σ k).getD defaultTracking).lastExecution) ∧
    MIN_DELAY_MS - (now - ((getT σ k).getD defaultTracking).lastExecution)
        ≤ 1000 * ceilDiv (MIN_DELAY_MS - (now - ((getT σ k).getD defaultTracking).lastExecution)) 1000 ∧
    (handleExecuteAndMonitor σ now k m gw).store = σ ∧
    (handleExecuteAndMonitor σ now k m gw).gatewayCalled = false := by
  set t := (getT σ k).getD defaultTracking with ht
  have h1 : (!t.hasManualExecution && !m) = false := by
    cases hb : t.hasManualExecution <;> cases m <;> simp_all
  have h2 : ¬t.count ≥ MAX_EXECUTIONS := by omega
  have h3 : now - t.lastExecution < MIN_DELAY_MS ∧ t.count > 0 := ⟨hcool, hpos⟩
  have hd : (0 : Int) < MIN_DELAY_MS - (now - t.lastExecution) := by
    simp only [MIN_DELAY_MS] at hcool ⊢
    omega
  refine ⟨?_, ceilDiv_1000_pos _ hd, (ceilDiv_1000_bounds _).1, (ceilDiv_1000_bounds _).2, ?_, ?_⟩ <;>
    · unfold handleExecuteAndMonitor
      simp [← ht, h1, h2, h3]

/-- Witness for C3 at a session one second into its cooldown. -/
theorem C3_witness :
    (handleExecuteAndMonitor σboom 12345 "s" false gwOK).result.kind
        = ResultKind.cooldownActive 18 1 ∧
    (0 : Int) < 18 ∧
    (handleExecuteAndMonitor σboom 12345 "s" false gwOK).store = σboom ∧
    (handleExecuteAndMonitor σboom 12345 "s" false gwOK).gatewayCalled = false := by
  have h := C3_cooldown σboom 12345 "s" false gwOK (by decide) (by decide)
    (by decide) (by decide)
  exact ⟨by simpa using h.1, by decide, h.2.2.2.2.1, h.2.2.2.2.2⟩

/-- Claim C4: `registerManualExecution` sets `hasManualExecution` for the
session (creating the record if absent), records `runId` when given
(truthy), leaves `attemptCount`, `lastAttemptAt` and `lastError` unchanged
(visible in the record equation), and is idempotent: two calls with the
same `success` value equal one call whose `runId` is the latest given
one. -/
theorem C4_register_idempotent (σ : Store) (k : String) (r : Option String)
    (b : Bool) :
    getT (handleRegisterManualExecution σ k r b).1 k
        = some { (getT σ k).getD defaultTracking with
                 hasManualExecution := true
                 lastRunId := if jsTruthy r then r
                   else ((getT σ k).getD defaultTracking).lastRunId } ∧
    (handleRegisterManualExecution (handleRegisterManualExecution σ k r b).1 k r b).1
        = (handleRegisterManualExecution σ k r b).1 ∧
    (∀ r2, (handleRegisterManualExecution (handleRegisterManualExecution σ k r b).1 k r2 b).1
        = (handleRegisterManualExecution σ k (if jsTruthy r2 then r2 else r) b).1) := by
  have key : ∀ r2,
      (handleRegisterManualExecution (handleRegisterManualExecution σ k r b).1 k r2 b).1
        = (handleRegisterManualExecution σ k (if jsTruthy r2 then r2 else r) b).1 := by
    intro r2
    unfold handleRegisterManualExecution
    simp only [getT_setT_self, Option.getD_some]
    rw [setT_setT_self]
    congr 1
    by_cases hr2 : jsTruthy r2 = true
    · simp [hr2]
    · by_cases hr : jsTruthy r = true
      · simp [hr2, hr]
      · simp [hr2, hr]
  refine ⟨?_, ?_, key⟩
  · unfold handleRegisterManualExecution
    exact getT_setT_self σ k _
  · have h := key r
    by_cases hr : jsTruthy r = true <;> simpa [hr] using h

/-- Claim C6: on an attempt that proceeds past the policy checks, a failed
submission overwrites the session's `lastError` with the failure message
(`error || "Execution failed"`), while a successful submission leaves
`lastError` exactly as it was (the stored record keeps the previous
value). -/
theorem C6_lastError_tracking (σ : Store) (now : Int) (k : String) (m : Bool)
    (gw : GatewayResult)
    (hm : (((getT σ k).getD defaultTracking).hasManualExecution || m) = true)
    (hcnt : ((getT σ k).getD defaultTracking).count < MAX_EXECUTIONS)
    (hcool : ¬(now - ((getT σ k).getD defaultTracking).lastExecution < MIN_DELAY_MS
        ∧ ((getT σ k).getD defaultTracking).count > 0)) :
    (gw.success = true →
      getT (handleExecuteAndMonitor σ now k m gw).store k
        = some { (getT σ k).getD defaultTracking with
                 count := ((getT σ k).getD defaultTracking).count + 1
                 lastExecution := now
                 hasManualExecution := if m then true
                   else ((getT σ k).getD defaultTracking).hasManualExecution }) ∧
    (gw.success = false →
      getT (handleExecuteAndMonitor σ now k m gw).store k
        = some { (getT σ k).getD defaultTracking with
                 count := ((getT σ k).getD defaultTracking).count + 1
                 lastExecution := now
                 hasManualExecution := if m then true
                   else ((getT σ k).getD defaultTracking).hasManualExecution
                 lastError := some (jsOrStr gw.error "Execution failed") }) := by
  set t := (getT σ k).getD defaultTracking with ht
  have h1 : (!t.hasManualExecution && !m) = false := by
    cases hb : t.hasManualExecution <;> cases m <;> simp_all
  have h2 : ¬t.count ≥ MAX_EXECUTIONS := by omega
  constructor <;> intro hs <;>
    · unfold handleExecuteAndMonitor
      simp [← ht, h1, h2, hcool, hs, getT_setT_self, setT_setT_self]

/-- Witness for C6: on session `s` with recorded error `boom`, a successful
attempt keeps `boom`; a failing attempt with message `crash` overwrites
it. -/
theorem C6_witness :
    getT (handleExecuteAndMonitor σboom 40000 "s" false gwOK).store "s"
        = some { count := 2, lastExecution := 40000, lastError := some "boom",
                 hasManualExecution := true, lastRunId := none } ∧
    getT (handleExecuteAndMonitor σboom 40000 "s" false gwCrash).store "s"
        = some { count := 2, lastExecution := 40000, lastError := some "crash",
                 hasManualExecution := true, lastRunId := none } := by
  have hok := C6_lastError_tracking σboom 40000 "s" false gwOK
    (by decide) (by decide) (by decide)
  have hcr := C6_lastError_tracking σboom 40000 "s" false gwCrash
    (by decide) (by decide) (by decide)
  exact ⟨by simpa using hok.1 (by decide), by simpa using hcr.2 (by decide)⟩

/-- Claim C7: after a successful submission, a failing (rejected) log
collection is tolerated: the gateway result substitutes the placeholder
note and still reports success with the run identifier and status, and the
governor turns it into the success result. -/
theorem C7_log_failure_tolerated (runId : String) (status : Option String)
    (e : String) (σ : Store) (now : Int) (k : String) (m : Bool)
    (hm : (((getT σ k).getD defaultTracking).hasManualExecution || m) = true)
    (hcnt : ((getT σ k).getD defaultTracking).count < MAX_EXECUTIONS)
    (hcool : ¬(now - ((getT σ k).getD defaultTracking).lastExecution < MIN_DELAY_MS
        ∧ ((getT σ k).getD defaultTracking).count > 0)) :
    (executeAdhocRunCollectPhase runId status (Except.error e)).success = true ∧
    (executeAdhocRunCollectPhase runId status (Except.error e)).logs
        = some "Logs are being generated. Check the Bolt.DIY interface for real-time logs." ∧
    (handleExecuteAndMonitor σ now k m
        (executeAdhocRunCollectPhase runId status (Except.error e))).result.kind
      = ResultKind.executionSucceeded (some runId) (some (jsOrStr status "STARTED"))
          "Logs are being generated. Check the Bolt.DIY interface for real-time logs."
          (((getT σ k).getD defaultTracking).count + 1) ∧
    (handleExecuteAndMonitor σ now k m
        (executeAdhocRunCollectPhase runId status (Except.error e))).gatewayCalled = true := by
  set t := (getT σ k).getD defaultTracking with ht
  have h1 : (!t.hasManualExecution && !m) = false := by
    cases hb : t.hasManualExecution <;> cases m <;> simp_all
  have h2 : ¬t.count ≥ MAX_EXECUTIONS := by omega
  refine ⟨rfl, rfl, ?_, ?_⟩ <;>
    · unfold handleExecuteAndMonitor
      simp +decide [← ht, h1, h2, hcool, executeAdhocRunCollectPhase, jsOrStr]

/-- Witness for C7 at concrete inputs. -/
theorem C7_witness :
    (executeAdhocRunCollectPhase "r7" (some "RUNNING") (Except.error "net down")).success = true ∧
    (handleExecuteAndMonitor σboom 40000 "s" false
        (executeAdhocRunCollectPhase "r7" (some "RUNNING") (Except.error "net down"))).result.kind
      = ResultKind.executionSucceeded (some "r7") (some "RUNNING")
          "Logs are being generated. Check the Bolt.DIY interface for real-time logs." 2 := by
  have h := C7_log_failure_tolerated "r7" (some "RUNNING") "net down" σboom 40000 "s" false
    (by decide) (by decide) (by decide)
  exact ⟨h.1, by simpa [jsOrStr] using h.2.2.1⟩

/-- Counterexample to claim C8 as stated: the two Governor implementations
do not differ in their policy constants nor in `lastError` handling — both
use a 30000 ms cooldown and a cap of 3, and at a concrete state with a
recorded error, a later successful attempt retains the error identically in
both. -/
theorem C8_counterexample :
    MIN_DELAY_MS = wsMIN_DELAY_MS ∧
    MAX_EXECUTIONS = wsMAX_EXECUTIONS ∧
    handleExecuteAndMonitor σboom 40000 "s" false gwOK
      = handleExecuteAndMonitorWS σboom 40000 "s" false gwOK ∧
    getT (handleExecuteAndMonitor σboom 40000 "s" false gwOK).store "s"
      = some { count := 2, lastExecution := 40000, lastError := some "boom",
               hasManualExecution := true, lastRunId := none } ∧
    getT (handleExecuteAndMonitorWS σboom 40000 "s" false gwOK).store "s"
      = some { count := 2, lastExecution := 40000, lastError := some "boom",
               hasManualExecution := true, lastRunId := none } := by
  decide

/-- Claim C8 as amended: the two Governor implementations share the same
constants and the same session policy — their embedded policy functions are
extensionally equal (they differ only in the job-spec fields forwarded to
the gateway, which lie outside the session policy). -/
theorem C8_implementations_agree (σ : Store) (now : Int) (k : String)
    (m : Bool) (gw : GatewayResult) :
    handleExecuteAndMonitor σ now k m gw = handleExecuteAndMonitorWS σ now k m gw := rfl
